import Mathlib

/-!
Verification development for the mkb killmail-ingestion service.

The definitions below are shallow embeddings of the Rust sources:
  src/esi/mod.rs        (EsiClient: token exchange, JWT validation, killmail
                         fetch/resolution and entity extraction)
  src/esi/processor.rs  (Job type and Processor consume loop)
  src/esi/scheduler.rs  (interval-driven scheduler)
  src/storage/models.rs (User::new)
  src/storage/handlers.rs (save_user upsert)

Side effects are made explicit: network calls, database queries and the
connection pool are passed in as oracle values/functions, freshly generated
values (uuid, clock) are parameters, and enqueueing a job is modelled by
returning the job in a list.  A Rust `.unwrap()` on a failing value is a
panic; functions that can panic return `Option` with `none` for the panic.
Machine integers (i64) are modelled as `Int` with explicit range checks
where the source behaviour depends on them.
-/

/-- JSON values as used by the embedded code (serde_json `Value`).  Only
integral numbers occur in the modelled payloads, so `num` carries an `Int`
(the source reads numbers exclusively through `as_i64`). -/
inductive Json where
  | null
  | bool (b : Bool)
  | num (n : Int)
  | str (s : String)
  | arr (xs : List Json)
  | obj (fields : List (String × Json))

/-- Field lookup on a JSON object: serde_json `Value::get(key)`.  Keys in a
serde_json map are unique, so first-match lookup is faithful. -/
def lookupField : List (String × Json) → String → Option Json
  | [], _ => none
  | (k, v) :: rest, key => if k = key then some v else lookupField rest key

/-- Rust `value.get(key)`: `Some` field of an object, `None` otherwise. -/
def Json.get? : Json → String → Option Json
  | .obj fields, key => lookupField fields key
  | _, _ => none

/-- Rust `value.as_i64()`: the integer of a number, `None` otherwise. -/
def Json.asI64 : Json → Option Int
  | .num n => some n
  | _ => none

/-- Rust `value.as_str()`. -/
def Json.asStr : Json → Option String
  | .str s => some s
  | _ => none

/-- Rust `value.as_array()`. -/
def Json.asArr : Json → Option (List Json)
  | .arr xs => some xs
  | _ => none

/-- Entity row (src/storage/models.rs `Entity`). -/
structure Entity where
  id : Int
  name : String
  type_ : String
deriving DecidableEq, Repr

/-- Killmail reference row (src/storage/models.rs `Killmail`). -/
structure Killmail where
  killmail_id : Int
  killmail_hash : String
  status : String
deriving DecidableEq, Repr

/-- One element of the recent-killmails listing (src/esi/mod.rs
`KillmailItem`). -/
structure KillmailItem where
  killmail_hash : String
  killmail_id : Int
deriving DecidableEq, Repr

/-- Decoded token claims (src/esi/mod.rs `Claims`). -/
structure Claims where
  aud : List String
  exp : Int
  iss : String
  sub : String
deriving DecidableEq, Repr

/-- Account row (src/storage/models.rs `User`).  The uuid primary key is a
`Nat`, timestamps are epoch seconds (`Int`). -/
structure User where
  id : Nat
  character_id : Int
  access_token : String
  refresh_token : String
  expires_at : Int
  created_at : Int
  updated_at : Int
  last_fetched : Option Int
deriving DecidableEq, Repr

/-- The i64 maximum, for the range check of Rust `str::parse::<i64>`. -/
def i64Max : Int := 2 ^ 63 - 1

/-- The i64 minimum. -/
def i64Min : Int := -(2 ^ 63)

/-- Earliest epoch second representable by a chrono `DateTime<Utc>`
(timestamp of `NaiveDateTime::MIN`); `DateTime::from_timestamp` returns
`None` below it. -/
def chronoMinTimestamp : Int := -8334601228800

/-- Latest epoch second representable by a chrono `DateTime<Utc>`
(timestamp of `NaiveDateTime::MAX`); `DateTime::from_timestamp` returns
`None` above it. -/
def chronoMaxTimestamp : Int := 8210266876799

/-- Rust `chrono::DateTime::from_timestamp(secs, 0)`: `Some` when the value
is representable, `None` otherwise. -/
def fromTimestamp (secs : Int) : Option Int :=
  if chronoMinTimestamp ≤ secs ∧ secs ≤ chronoMaxTimestamp then some secs else none

/-- Does the needle match at the head of the haystack (character-wise)?
This is the prefix test used by Rust `str::replace` when scanning for the
next occurrence of the pattern. -/
def matchesAt : List Char → List Char → Bool
  | [], _ => true
  | _ :: _, [] => false
  | p :: ps, c :: cs => p = c && matchesAt ps cs

/-- Rust `str::replace(pat, rep)` on character lists: replaces every
non-overlapping occurrence of `pat`, scanning left to right.  An empty
pattern is left untouched (the embedded code only uses a non-empty one). -/
def replaceAll (pat rep : List Char) : List Char → List Char
  | [] => []
  | c :: rest =>
    if pat ≠ [] ∧ matchesAt pat (c :: rest) then
      rep ++ replaceAll pat rep ((c :: rest).drop pat.length)
    else
      c :: replaceAll pat rep rest
termination_by s => s.length
decreasing_by
  · rename_i h
    cases pat with
    | nil => exact absurd rfl h.1
    | cons p ps => simp [List.length_drop]; omega
  · simp

/-- Value of one decimal digit character. -/
def digitVal (c : Char) : Option Nat :=
  if c.isDigit then some (c.toNat - 48) else none

/-- Accumulating decimal parse over the remaining characters; fails on the
first non-digit (Rust integer parsing rejects any stray character). -/
def parseDigitsAux : List Char → Nat → Option Nat
  | [], acc => some acc
  | c :: rest, acc =>
    match digitVal c with
    | some d => parseDigitsAux rest (acc * 10 + d)
    | none => none

/-- Decimal parse of a non-empty all-digit string. -/
def parseDigits : List Char → Option Nat
  | [] => none
  | c :: rest => parseDigitsAux (c :: rest) 0

/-- Rust `str::parse::<i64>()`: optional sign, then decimal digits, with
the i64 range check. -/
def parseI64 (s : List Char) : Option Int :=
  match s with
  | [] => none
  | c :: rest =>
    if c = '+' then
      (parseDigits rest).bind fun n =>
        if (n : Int) ≤ i64Max then some ((n : Int)) else none
    else if c = '-' then
      (parseDigits rest).bind fun n =>
        if i64Min ≤ -(n : Int) then some (-(n : Int)) else none
    else
      (parseDigits (c :: rest)).bind fun n =>
        if (n : Int) ≤ i64Max then some ((n : Int)) else none

/-- The literal `"CHARACTER:EVE:"` removed from the subject claim in
`User::new`. -/
def characterEveMarker : List Char := "CHARACTER:EVE:".toList

/-- Account construction from a validated token
(src/storage/models.rs `User::new`).  The freshly generated uuid and the
current time are explicit parameters. -/
def User.new (uuid : Nat) (now : Int) (access_token refresh_token : String)
    (claims : Claims) : User :=
  { id := uuid
    character_id := (parseI64 (replaceAll characterEveMarker [] claims.sub.toList)).getD 0
    access_token := access_token
    refresh_token := refresh_token
    expires_at := (fromTimestamp claims.exp).getD 0
    created_at := now
    updated_at := now
    last_fetched := none }

/-- Job variants.  `Refresh` through `Stop` are translated from
src/esi/processor.rs `Job`.  The `SaveEntity` and `ResolveKillmails`
kinds are referenced from src/esi/mod.rs (line 512) and
src/http/handlers.rs (line 133) but declared in a processor revision that
is not part of the source tree.  Modelled from the spec: job kinds
`SaveEntity(Entity)` and `ResolveKillmails` of section 4.2 (the spec names
`SaveCharacter` as `SaveAccount` and `SaveKillmail` as
`SaveKillmailReference`). -/
inductive Job where
  | Refresh
  | Killmails
  | Killmail (killmail_id : Int) (killmail_hash : String)
  | Character (character_id : Int)
  | Corporation (corporation_id : Int)
  | Alliance (alliance_id : Int)
  | SaveCharacter (user : User)
  | SaveKillmail (killmail : Killmail)
  | SaveEntity (entity : Entity)
  | ResolveKillmails
  | Stop
deriving DecidableEq, Repr

/-- Entities contributed by the victim object of a killmail document
(src/esi/mod.rs `get_killmail_data`, lines 428 to 464): at most one each of
character, corporation, alliance, weapon type and ship type, in that fixed
field order, when the numeric field is present. -/
def victimEntities (victim : Json) : List Entity :=
  (match (victim.get? "character_id").bind Json.asI64 with
   | some char_id => [{ id := char_id, name := "", type_ := "character" }]
   | none => []) ++
  (match (victim.get? "corporation_id").bind Json.asI64 with
   | some corp_id => [{ id := corp_id, name := "", type_ := "corporation" }]
   | none => []) ++
  (match (victim.get? "alliance_id").bind Json.asI64 with
   | some alliance_id => [{ id := alliance_id, name := "", type_ := "alliance" }]
   | none => []) ++
  (match (victim.get? "weapon_type_id").bind Json.asI64 with
   | some weapon_type_id => [{ id := weapon_type_id, name := "", type_ := "weapon_type" }]
   | none => []) ++
  (match (victim.get? "ship_type_id").bind Json.asI64 with
   | some ship_type_id => [{ id := ship_type_id, name := "", type_ := "ship_type" }]
   | none => [])

/-- Entities contributed by one attacker entry (src/esi/mod.rs
`get_killmail_data`, lines 467 to 497): character, corporation, alliance
and ship type, in that fixed field order. -/
def attackerEntities (attacker : Json) : List Entity :=
  (match (attacker.get? "character_id").bind Json.asI64 with
   | some char_id => [{ id := char_id, name := "", type_ := "character" }]
   | none => []) ++
  (match (attacker.get? "corporation_id").bind Json.asI64 with
   | some corp_id => [{ id := corp_id, name := "", type_ := "corporation" }]
   | none => []) ++
  (match (attacker.get? "alliance_id").bind Json.asI64 with
   | some alliance_id => [{ id := alliance_id, name := "", type_ := "alliance" }]
   | none => []) ++
  (match (attacker.get? "ship_type_id").bind Json.asI64 with
   | some ship_type_id => [{ id := ship_type_id, name := "", type_ := "ship_type" }]
   | none => [])

/-- The entity list collected from a killmail detail document
(src/esi/mod.rs `get_killmail_data`, lines 410 to 498): one solar-system
entity first (the sentinel id 0 when `solar_system_id` is absent, which the
source logs as an error), then the victim entities, then the attacker
entities in array order. -/
def extractEntities (doc : Json) : List Entity :=
  (match (doc.get? "solar_system_id").bind Json.asI64 with
   | some system_id => { id := system_id, name := "", type_ := "solar_system" : Entity }
   | none => { id := 0, name := "", type_ := "solar_system" }) ::
  ((match doc.get? "victim" with
    | some victim => victimEntities victim
    | none => []) ++
   (match (doc.get? "attackers").bind Json.asArr with
    | some attackers => (attackers.map attackerEntities).flatten
    | none => []))

/-- The enqueue loop at the end of `get_killmail_data` (src/esi/mod.rs,
lines 505 to 521): each collected entity whose id is not 0 is sent to the
job queue as a `SaveEntity` job; the sentinel id 0 is skipped. -/
def enqueueEntities : List Entity → List Job
  | [] => []
  | e :: rest =>
    if e.id = 0 then enqueueEntities rest else Job.SaveEntity e :: enqueueEntities rest

/-- The killmail document of the end-to-end extraction scenario. -/
def scenarioKillmailDoc : Json :=
  Json.obj
    [("killmail_id", Json.num 100),
     ("killmail_hash", Json.str "abc"),
     ("solar_system_id", Json.num 30000142),
     ("victim", Json.obj [("character_id", Json.num 1), ("corporation_id", Json.num 10)]),
     ("attackers", Json.arr [Json.obj [("character_id", Json.num 2), ("ship_type_id", Json.num 600)]])]

/-- C5: for the killmail document of the scenario, entity extraction
produces exactly five entities, in the order solar system, victim fields
in the fixed victim field order, then attackers in array order with the
fixed per-attacker field order. -/
theorem c5_scenario_extraction :
    extractEntities scenarioKillmailDoc =
      [{ id := 30000142, name := "", type_ := "solar_system" },
       { id := 1, name := "", type_ := "character" },
       { id := 10, name := "", type_ := "corporation" },
       { id := 2, name := "", type_ := "character" },
       { id := 600, name := "", type_ := "ship_type" }] := by
  rfl

/-- The enqueue loop keeps exactly the entities with a nonzero id, in
order, wrapping each in a `SaveEntity` job. -/
theorem enqueueEntities_eq_filter (l : List Entity) :
    enqueueEntities l = (l.filter (fun e => e.id != 0)).map Job.SaveEntity := by
  induction l with
  | nil => rfl
  | cons e rest ih =>
    by_cases h : e.id = 0
    · simp [enqueueEntities, List.filter_cons, h, ih]
    · simp [enqueueEntities, List.filter_cons, h, ih]

/-- C6: every entity handed to the job queue as a `SaveEntity` job has a
nonzero identifier; a document without a numeric `solar_system_id` still
yields the sentinel solar-system entity (id 0) in the extracted list, but
that sentinel is filtered out before enqueueing. -/
theorem c6_sentinel_never_enqueued (doc : Json) :
    (∀ e : Entity, Job.SaveEntity e ∈ enqueueEntities (extractEntities doc) → e.id ≠ 0) ∧
    ((doc.get? "solar_system_id").bind Json.asI64 = none →
      ({ id := 0, name := "", type_ := "solar_system" } : Entity) ∈ extractEntities doc ∧
      Job.SaveEntity { id := 0, name := "", type_ := "solar_system" } ∉
        enqueueEntities (extractEntities doc)) := by
  have hmem : ∀ e : Entity, Job.SaveEntity e ∈ enqueueEntities (extractEntities doc) →
      e.id ≠ 0 := by
    intro e he
    rw [enqueueEntities_eq_filter] at he
    obtain ⟨a, ha, hEq⟩ := List.mem_map.mp he
    obtain ⟨-, hPred⟩ := List.mem_filter.mp ha
    injection hEq with h
    subst h
    exact bne_iff_ne.mp hPred
  refine ⟨hmem, fun h => ⟨?_, ?_⟩⟩
  · unfold extractEntities
    rw [h]
    exact List.mem_cons_self _ _
  · intro hIn
    exact hmem _ hIn rfl

/-- C6 witness: the empty JSON object has no `solar_system_id`, the
sentinel appears in its extraction, and no `SaveEntity` job carries it. -/
theorem c6_witness :
    ({ id := 0, name := "", type_ := "solar_system" } : Entity) ∈ extractEntities (Json.obj []) ∧
    Job.SaveEntity { id := 0, name := "", type_ := "solar_system" } ∉
      enqueueEntities (extractEntities (Json.obj [])) :=
  (c6_sentinel_never_enqueued (Json.obj [])).2 rfl

/-- Outcome of `get_killmail_data` for one killmail (src/esi/mod.rs, lines
382 to 524), with the network fetch (send, status check and JSON decode)
as an oracle: on success the enqueued `SaveEntity` jobs for the nonzero
extracted entities, on failure no jobs and the propagated error. -/
def getKillmailDataJobs (fetchResult : Except String Json) :
    List Job × Except String Unit :=
  match fetchResult with
  | .error e => ([], .error e)
  | .ok doc => (enqueueEntities (extractEntities doc), .ok ())

/-- Embedding of `resolve_killmails` (src/esi/mod.rs, lines 361 to 380):
one concurrent task per killmail reference runs `get_killmail_data`; a
task failure is logged and does not cancel the sibling tasks.  The result
lists the jobs each task enqueues (the source gives no ordering guarantee
among concurrent tasks, so jobs are kept per task). -/
def resolveKillmails (fetch : Killmail → Except String Json) (kms : List Killmail) :
    List (List Job) :=
  kms.map (fun km => (getKillmailDataJobs (fetch km)).1)

/-- Modelled from the spec: the `ResolveKillmails` dispatch arm of the
Processor (spec section 4.2) is not in src/esi/processor.rs — only its
producer, src/http/handlers.rs `resolve`, is in the tree.  Per the spec the
arm queries the killmail references pending resolution (oracle `pending`)
and, on success, runs `resolve_killmails` from src/esi/mod.rs; a query
failure is logged and processing continues. -/
def processResolveKillmails (pending : Except String (List Killmail))
    (fetch : Killmail → Except String Json) : List (List Job) :=
  match pending with
  | .error _ => []
  | .ok kms => resolveKillmails fetch kms

/-- C4: dequeuing a `ResolveKillmails` job queries the pending killmail
references and, per reference, fetches the detail document, extracts
entities, and enqueues one `SaveEntity` job per extracted nonzero entity
(a failed fetch contributes no jobs and aborts nothing else). -/
theorem c4_resolve_dispatch (kms : List Killmail)
    (fetch : Killmail → Except String Json) :
    processResolveKillmails (Except.ok kms) fetch =
      kms.map (fun km =>
        match fetch km with
        | Except.ok doc =>
            ((extractEntities doc).filter (fun e => e.id != 0)).map Job.SaveEntity
        | Except.error _ => []) := by
  unfold processResolveKillmails resolveKillmails
  have hfn : (fun km => (getKillmailDataJobs (fetch km)).1) =
      (fun km =>
        match fetch km with
        | Except.ok doc =>
            ((extractEntities doc).filter (fun e => e.id != 0)).map Job.SaveEntity
        | Except.error _ => ([] : List Job)) := by
    funext km
    cases h : fetch km <;> simp [getKillmailDataJobs, h, enqueueEntities_eq_filter]
  rw [hfn]

/-- Embedding of `EsiClient::refresh` (src/esi/mod.rs, lines 308 to 342):
sequentially exchanges each account refresh token; a returned success
enqueues one `SaveCharacter` job (the spec calls the kind `SaveAccount`),
a returned error is logged and skipped.  The per-account outcome of
`token_exchange` is the oracle `exchange`, typed like the `tokenExchange`
embedding: `none` is the panic inside `validate_jwt` (the unwraps at
src/esi/mod.rs lines 147 and 156) escaping through `token_exchange`,
which kills the task mid-batch.  The result pairs the jobs enqueued
before any panic with `true` when the loop reached the end of the batch
and `false` when a panic cut it short. -/
def refreshJobs (exchange : User → Option (Except String User)) :
    List User → List Job × Bool
  | [] => ([], true)
  | user :: rest =>
    match exchange user with
    | none => ([], false)
    | some (.ok newUser) =>
      let r := refreshJobs exchange rest
      (Job.SaveCharacter newUser :: r.1, r.2)
    | some (.error _) => refreshJobs exchange rest

/-- Account 11 of the two-account batch for the C7 evaluation. -/
def batchUserA : User :=
  { id := 3, character_id := 11, access_token := "accA", refresh_token := "refA",
    expires_at := 100, created_at := 1, updated_at := 1, last_fetched := none }

/-- Account 12 of the two-account batch for the C7 evaluation. -/
def batchUserB : User :=
  { id := 4, character_id := 12, access_token := "accB", refresh_token := "refB",
    expires_at := 100, created_at := 1, updated_at := 1, last_fetched := none }

/-- Exchange oracle for the C7 evaluation: the first account's exchange
panics (for example the signing-key-set fetch fails during its
validation) while every other account's exchange would succeed. -/
def panicOnFirstBatchUser : User → Option (Except String User) :=
  fun u => if u.character_id = 11 then none else some (Except.ok u)

/-- C7 (evaluation of the defect): when every exchange returns (no
panic), refresh walks the whole batch in order, one `SaveCharacter` job
per returned success, returned errors skipped — but an exchange that
panics (`none`: the `validate_jwt` unwraps reached through
`token_exchange`) aborts the batch: on the two-account batch whose first
exchange panics, the loop stops incomplete and the second account —
whose exchange would have succeeded — gets no `SaveCharacter` job, where
the claim demands the remaining accounts still be processed. -/
theorem c7_refresh_abort_on_panic :
    (∀ (f : User → Except String User) (users : List User),
      refreshJobs (fun u => some (f u)) users =
        (users.filterMap (fun user =>
          match f user with
          | Except.ok newUser => some (Job.SaveCharacter newUser)
          | Except.error _ => none), true)) ∧
    refreshJobs panicOnFirstBatchUser [batchUserA, batchUserB] = ([], false) := by
  refine ⟨fun f users => ?_, rfl⟩
  induction users with
  | nil => rfl
  | cons u rest ih =>
    cases h : f u <;> simp [refreshJobs, h, List.filterMap_cons, ih]

/-- Every character of a pattern that matches at the head of a list occurs
in that list. -/
theorem mem_of_matchesAt {pat s : List Char} (h : matchesAt pat s = true) :
    ∀ x ∈ pat, x ∈ s := by
  induction pat generalizing s with
  | nil => intro x hx; cases hx
  | cons p ps ih =>
    cases s with
    | nil => simp [matchesAt] at h
    | cons c cs =>
      simp only [matchesAt, Bool.and_eq_true, decide_eq_true_eq] at h
      intro x hx
      rcases List.mem_cons.mp hx with hEq | hMem
      · subst hEq
        rw [h.1]
        exact List.mem_cons_self _ _
      · exact List.mem_cons_of_mem _ (ih h.2 x hMem)

/-- A pattern matches at the head of itself followed by anything. -/
theorem matchesAt_append_self (pat s : List Char) :
    matchesAt pat (pat ++ s) = true := by
  induction pat with
  | nil => rfl
  | cons p ps ih => simp [matchesAt, ih]

/-- Replacement is the identity on a string missing some pattern
character. -/
theorem replaceAll_eq_self_of_not_mem (pat rep : List Char) (x : Char)
    (hx : x ∈ pat) : ∀ s : List Char, x ∉ s → replaceAll pat rep s = s := by
  intro s
  induction s with
  | nil => intro _; rw [replaceAll]
  | cons c cs ih =>
    intro hns
    have hcond : ¬ (pat ≠ [] ∧ matchesAt pat (c :: cs) = true) := by
      rintro ⟨-, hm⟩
      exact hns (mem_of_matchesAt hm x hx)
    rw [replaceAll, if_neg hcond]
    exact congrArg (c :: ·) (ih fun hm => hns (List.mem_cons_of_mem _ hm))

/-- Replacing a non-empty pattern at its own occurrence strips it and
continues on the remainder. -/
theorem replaceAll_strip_head (pat rep s : List Char) (hne : pat ≠ []) :
    replaceAll pat rep (pat ++ s) = rep ++ replaceAll pat rep s := by
  cases pat with
  | nil => exact absurd rfl hne
  | cons p ps =>
    have h1 : matchesAt (p :: ps) (p :: (ps ++ s)) = true := by
      have := matchesAt_append_self (p :: ps) s
      simpa using this
    rw [List.cons_append, replaceAll, if_pos ⟨hne, h1⟩]
    have h2 : (p :: (ps ++ s)).drop (p :: ps).length = s := by
      rw [← List.cons_append, List.drop_left]
    rw [h2]

/-- Removing the `CHARACTER:EVE:` marker from the marker followed by a
digit string leaves exactly the digit string (a digit string cannot
contain the colon of the marker). -/
theorem replaceAll_eveMarker_digits (ds : List Char)
    (hds : ∀ c ∈ ds, c.isDigit) :
    replaceAll characterEveMarker [] (characterEveMarker ++ ds) = ds := by
  rw [replaceAll_strip_head _ _ _ (by decide), List.nil_append]
  apply replaceAll_eq_self_of_not_mem _ _ ':' (by decide)
  intro hmem
  exact absurd (hds _ hmem) (by decide)

/-- Decimal value of a digit string (most significant digit first). -/
def decimalValue (ds : List Char) : Nat :=
  ds.foldl (fun acc c => acc * 10 + (c.toNat - 48)) 0

/-- The accumulating parse succeeds on all-digit input and folds up the
decimal value. -/
theorem parseDigitsAux_all_digits (ds : List Char)
    (hds : ∀ c ∈ ds, c.isDigit) :
    ∀ acc : Nat, parseDigitsAux ds acc =
      some (ds.foldl (fun a c => a * 10 + (c.toNat - 48)) acc) := by
  induction ds with
  | nil => intro _; rfl
  | cons c rest ih =>
    intro acc
    have hc : c.isDigit = true := hds c (List.mem_cons_self _ _)
    simp only [parseDigitsAux, digitVal, hc, if_pos, List.foldl_cons]
    exact ih (fun x hx => hds x (List.mem_cons_of_mem _ hx)) _

/-- The i64 parse of a non-empty all-digit string within range is its
decimal value. -/
theorem parseI64_all_digits (ds : List Char) (hne : ds ≠ [])
    (hds : ∀ c ∈ ds, c.isDigit)
    (hfit : (decimalValue ds : Int) ≤ i64Max) :
    parseI64 ds = some ((decimalValue ds : Int)) := by
  cases ds with
  | nil => exact absurd rfl hne
  | cons c rest =>
    have hc : c.isDigit = true := hds c (List.mem_cons_self _ _)
    have hplus : ¬ c = '+' := fun hEq => by
      rw [hEq] at hc; exact absurd hc (by decide)
    have hminus : ¬ c = '-' := fun hEq => by
      rw [hEq] at hc; exact absurd hc (by decide)
    simp only [parseI64, if_neg hplus, if_neg hminus, parseDigits]
    rw [parseDigitsAux_all_digits _ hds 0]
    simp only [Option.some_bind]
    rw [if_pos]
    · rfl
    · exact hfit

mutual
/-- serde_json `Value::to_string()` (compact rendering).  String escaping
is not modelled; the payload strings handled by the embedded code contain
no characters that would be escaped. -/
def Json.render : Json → String
  | .null => "null"
  | .bool b => if b then "true" else "false"
  | .num n => toString n
  | .str s => "\"" ++ s ++ "\""
  | .arr xs => "[" ++ renderSep xs ++ "]"
  | .obj fs => "\x7b" ++ renderFieldsSep fs ++ "\x7d"

/-- Comma-separated rendering of array elements. -/
def renderSep : List Json → String
  | [] => ""
  | [x] => Json.render x
  | x :: y :: rest => Json.render x ++ "," ++ renderSep (y :: rest)

/-- Comma-separated rendering of object fields. -/
def renderFieldsSep : List (String × Json) → String
  | [] => ""
  | [(k, v)] => "\"" ++ k ++ "\":" ++ Json.render v
  | (k, v) :: f :: rest =>
      "\"" ++ k ++ "\":" ++ Json.render v ++ "," ++ renderFieldsSep (f :: rest)
end

/-- Rust `str::trim_matches(c)`: strips every leading and every trailing
occurrence of the character. -/
def trimChar (c : Char) (s : String) : String :=
  String.mk (((s.toList.dropWhile (fun x => x = c)).reverse.dropWhile (fun x => x = c)).reverse)

/-- The token-extraction idiom of `token_exchange` (src/esi/mod.rs, lines
103 to 110): `result["access_token"].to_string().trim_matches('"')`.
Indexing a JSON object with a missing key yields `null`. -/
def jsonFieldString (v : Json) (key : String) : String :=
  trimChar '"' (Json.render ((v.get? key).getD Json.null))

/-- Embedding of `EsiClient::token_exchange` (src/esi/mod.rs, lines 78 to
125).  The credential-authenticated POST to the token endpoint together
with its JSON decoding is the oracle `httpResult`; JWT validation is the
oracle `validate`, whose `none` outcome is a panic inside `validate_jwt`,
which propagates (outer `none`).  On success the account is built by
`User::new` on the validated claims. -/
def tokenExchange (uuid : Nat) (now : Int) (httpResult : Except String Json)
    (validate : String → Option (Except String Claims)) :
    Option (Except String User) :=
  match httpResult with
  | .error e => some (.error ("failed to send request: " ++ e))
  | .ok result =>
    let access_token := jsonFieldString result "access_token"
    let refresh_token := jsonFieldString result "refresh_token"
    match validate access_token with
    | none => none
    | some (.error e) => some (.error ("failed to validate JWT: " ++ e))
    | some (.ok claims) => some (.ok (User.new uuid now access_token refresh_token claims))

/-- C8: an authorization-code exchange that succeeds with a validated
token yields the account built by `User::new`, whose character identifier
is the decimal value of the subject suffix after the `CHARACTER:EVE:`
marker and whose expiry is the claim exp epoch-seconds value. -/
theorem c8_exchange_account_fields (uuid : Nat) (now : Int) (result : Json)
    (validate : String → Option (Except String Claims)) (claims : Claims)
    (ds : List Char)
    (hval : validate (jsonFieldString result "access_token") = some (Except.ok claims))
    (hsub : claims.sub.toList = characterEveMarker ++ ds)
    (hne : ds ≠ []) (hds : ∀ c ∈ ds, c.isDigit)
    (hfit : (decimalValue ds : Int) ≤ i64Max)
    (hexp : chronoMinTimestamp ≤ claims.exp ∧ claims.exp ≤ chronoMaxTimestamp) :
    tokenExchange uuid now (Except.ok result) validate =
      some (Except.ok (User.new uuid now (jsonFieldString result "access_token")
        (jsonFieldString result "refresh_token") claims)) ∧
    (User.new uuid now (jsonFieldString result "access_token")
        (jsonFieldString result "refresh_token") claims).character_id =
      (decimalValue ds : Int) ∧
    (User.new uuid now (jsonFieldString result "access_token")
        (jsonFieldString result "refresh_token") claims).expires_at = claims.exp := by
  refine ⟨?_, ?_, ?_⟩
  · simp only [tokenExchange]
    rw [hval]
  · simp only [User.new]
    rw [hsub, replaceAll_eveMarker_digits ds hds, parseI64_all_digits ds hne hds hfit]
    rfl
  · simp only [User.new, fromTimestamp, if_pos hexp]
    rfl

/-- Concrete token-endpoint response for the C8 witness. -/
def witnessTokenJson : Json :=
  Json.obj [("access_token", Json.str "acc"), ("refresh_token", Json.str "ref")]

/-- Concrete validated claims for the C8 witness. -/
def witnessClaims : Claims :=
  { aud := ["client-id", "EVE Online"], exp := 1700000000,
    iss := "login.eveonline.com", sub := "CHARACTER:EVE:12345" }

/-- C8 witness: on the concrete response and claims the exchange succeeds
and the account carries character id 12345. -/
theorem c8_witness :
    tokenExchange 7 1699990000 (Except.ok witnessTokenJson)
        (fun _ => some (Except.ok witnessClaims)) =
      some (Except.ok (User.new 7 1699990000
        (jsonFieldString witnessTokenJson "access_token")
        (jsonFieldString witnessTokenJson "refresh_token") witnessClaims)) ∧
    (User.new 7 1699990000 (jsonFieldString witnessTokenJson "access_token")
        (jsonFieldString witnessTokenJson "refresh_token")
        witnessClaims).character_id = 12345 := by
  have h := c8_exchange_account_fields 7 1699990000 witnessTokenJson
    (fun _ => some (Except.ok witnessClaims)) witnessClaims ("12345".toList)
    rfl (by decide) (by decide) (by decide) (by decide) (by decide)
  exact ⟨h.1, h.2.1.trans (by decide)⟩

/-- C10 counterexample: the subject `"42"` is not of the form
`CHARACTER:EVE:` followed by a decimal integer, yet `User::new` yields
character id 42 rather than 0: `str::replace` leaves a marker-free subject
untouched and the residue parses. -/
theorem c10_counterexample :
    ¬ (∀ (uuid : Nat) (now : Int) (a r : String) (claims : Claims),
        (¬ ∃ ds : List Char, (∀ c ∈ ds, c.isDigit) ∧
            claims.sub.toList = characterEveMarker ++ ds) →
        (User.new uuid now a r claims).character_id = 0) := by
  intro h
  have hform : ¬ ∃ ds : List Char, (∀ c ∈ ds, c.isDigit) ∧
      ("42" : String).toList = characterEveMarker ++ ds := by
    rintro ⟨ds, -, hEq⟩
    have hlen := congrArg List.length hEq
    simp [characterEveMarker] at hlen
  have h42 := h 0 0 "a" "r" { aud := [], exp := 0, iss := "i", sub := "42" } hform
  have hval : (User.new 0 0 "a" "r"
      { aud := [], exp := 0, iss := "i", sub := "42" }).character_id = 42 := by
    simp only [User.new]
    rw [replaceAll_eq_self_of_not_mem characterEveMarker [] ':' (by decide)
      ("42" : String).toList (by decide)]
    rw [parseI64_all_digits ("42" : String).toList (by decide) (by decide) (by decide)]
    rfl
  rw [h42] at hval
  exact absurd hval (by decide)

/-- C10 amended: account construction never fails; the character id is the
i64 parse of the subject with every occurrence of `CHARACTER:EVE:` deleted
and silently defaults to 0 — the entity sentinel value — when that residue
does not parse; an exp outside the chrono-representable range silently
defaults to the epoch-zero expiry. -/
theorem c10_silent_defaults (uuid : Nat) (now : Int) (a r : String)
    (claims : Claims) :
    (parseI64 (replaceAll characterEveMarker [] claims.sub.toList) = none →
      (User.new uuid now a r claims).character_id = 0) ∧
    (claims.exp < chronoMinTimestamp ∨ chronoMaxTimestamp < claims.exp →
      (User.new uuid now a r claims).expires_at = 0) := by
  constructor
  · intro h
    have h2 : parseI64 (replaceAll characterEveMarker [] claims.sub.data) = none := h
    simp [User.new, h2]
  · intro h
    have hnone : fromTimestamp claims.exp = none := by
      unfold fromTimestamp
      rw [if_neg]
      rcases h with h | h <;> omega
    simp [User.new, hnone]

/-- Concrete malformed claims for the C10 witness: an unparsable subject
and an exp one past the chrono maximum. -/
def badClaims : Claims :=
  { aud := [], exp := 8210266876800, iss := "login.eveonline.com", sub := "xx" }

/-- C10 witness: on the malformed claims the account silently carries
character id 0 and the epoch-zero expiry. -/
theorem c10_witness :
    (User.new 0 0 "a" "r" badClaims).character_id = 0 ∧
    (User.new 0 0 "a" "r" badClaims).expires_at = 0 := by
  refine ⟨(c10_silent_defaults 0 0 "a" "r" badClaims).1 ?_,
    (c10_silent_defaults 0 0 "a" "r" badClaims).2 (Or.inr (by decide))⟩
  show parseI64 (replaceAll characterEveMarker [] ("xx" : String).toList) = none
  rw [replaceAll_eq_self_of_not_mem characterEveMarker [] ':' (by decide)
    ("xx" : String).toList (by decide)]
  decide

/-- Strings of a JSON array, or `none` when some element is not a
string. -/
def strList : List Json → Option (List String)
  | [] => some []
  | x :: rest =>
    match x with
    | .str s => (strList rest).map (fun ss => s :: ss)
    | _ => none

/-- A JSON value as a string array (serde deserialization of
`Vec<String>`). -/
def Json.asStrList : Json → Option (List String)
  | .arr xs => strList xs
  | _ => none

/-- Deserialization of the `Claims` struct from the decoded claim object
(the serde `from_value` call at src/esi/mod.rs line 162): requires a
string-array `aud`, an integral `exp`, a string `iss` and a string
`sub`. -/
def claimsFromJson (v : Json) : Except String Claims :=
  match (v.get? "aud").bind Json.asStrList, (v.get? "exp").bind Json.asI64,
        (v.get? "iss").bind Json.asStr, (v.get? "sub").bind Json.asStr with
  | some aud, some exp, some iss, some sub =>
      .ok { aud := aud, exp := exp, iss := iss, sub := sub }
  | _, _, _, _ => .error "failed to deserialize claims"

/-- Decoding key built from a JWK (jsonwebtoken `DecodingKey`); the key
material itself is opaque to the embedded logic. -/
structure DecodingKey where
  jwk : Json

/-- Whether a JWK entry carries `alg` equal to `"RS256"` (the filter at
src/esi/mod.rs line 174; a missing `alg` field compares unequal). -/
def algIsRS256 (k : Json) : Bool :=
  match k.get? "alg" with
  | some (.str s) => s = "RS256"
  | _ => false

/-- Embedding of `EsiClient::get_rsa256_key` (src/esi/mod.rs, lines 166 to
191).  The GET of the jwks endpoint together with its JSON decoding is the
oracle `fetchResult`; building the decoding key from the selected JWK is
the oracle `fromJwk` (the serialize-then-reparse round trip of the source
is the identity on the embedded JSON).  The result is `none` — a panic —
when the response has no array `keys` field (the `as_array().unwrap()` at
line 172); otherwise `some` of the first RS256 key turned into a decoding
key, of the error when no RS256 key exists, or of the key-conversion
error. -/
def getRsa256Key (fetchResult : Except String Json)
    (fromJwk : Json → Except String DecodingKey) :
    Option (Except String DecodingKey) :=
  match fetchResult with
  | .error e => some (.error e)
  | .ok resp =>
    match (resp.get? "keys").bind Json.asArr with
    | none => none
    | some keys =>
      match keys.filter algIsRS256 with
      | [] => some (.error "No RS256 key found")
      | k :: _ => some (fromJwk k)

/-- Embedding of `EsiClient::validate_jwt` (src/esi/mod.rs, lines 145 to
164).  `keyResult` is the outcome of `get_rsa256_key` (`none` when that
already panicked); the signature-verifying decode with required claim
`sub` and the audience check is the oracle `decodeTok`, yielding the
decoded claim object.  The result is `none` — a panic — when the key fetch
returned an error (the `.unwrap()` at line 147) or when the decoded claims
have no string `iss` (the `as_str().unwrap()` at line 156); otherwise the
issuer is checked against the two accepted strings and the claims are
deserialized. -/
def validateJwt (keyResult : Option (Except String DecodingKey))
    (decodeTok : DecodingKey → Except String Json) :
    Option (Except String Claims) :=
  match keyResult with
  | none => none
  | some (.error _) => none
  | some (.ok key) =>
    match decodeTok key with
    | .error e => some (.error e)
    | .ok claimsJson =>
      match (claimsJson.get? "iss").bind Json.asStr with
      | none => none
      | some iss =>
        if iss ≠ "login.eveonline.com" ∧ iss ≠ "https://login.eveonline.com" then
          some (.error "JWT issuer is incorrect")
        else
          match claimsFromJson claimsJson with
          | .error e => some (.error e)
          | .ok c => some (.ok c)

/-- C2 (evaluation of the defect): a failing signing-key-set fetch makes
`validate_jwt` panic (`none`) through the `.unwrap()` instead of returning
a validation error, for every decode outcome; the same holds with the
failure propagated through `get_rsa256_key`; a decoded token without an
`iss` claim also panics; the issuer allow-list itself does reject a
foreign issuer with an error rather than a panic. -/
theorem c2_validate_panics_on_key_fetch_failure :
    (∀ decodeTok, validateJwt (some (Except.error "jwks fetch failed")) decodeTok = none) ∧
    (∀ fromJwk decodeTok,
      validateJwt (getRsa256Key (Except.error "connection refused") fromJwk) decodeTok =
        none) ∧
    (∀ key, validateJwt (some (Except.ok key)) (fun _ => Except.ok (Json.obj [])) = none) ∧
    (∀ key, validateJwt (some (Except.ok key))
        (fun _ => Except.ok (Json.obj [("iss", Json.str "evil.example")])) =
      some (Except.error "JWT issuer is incorrect")) := by
  refine ⟨fun _ => rfl, fun _ _ => rfl, fun _ => rfl, fun _ => rfl⟩

/-- The three scheduler timers (src/esi/scheduler.rs). -/
inductive TimerKind where
  | refresh
  | fetch
  | resolve
deriving DecidableEq, Repr

/-- Jobs enqueued by one tick of each timer arm of the scheduler select
loop (src/esi/scheduler.rs, lines 20 to 38): the refresh arm sends
`Job::Refresh` and the fetch arm sends `Job::Killmails`, both through the
blocking `send`; the resolve arm only logs and sends no job. -/
def schedulerTickJobs : TimerKind → List Job
  | .refresh => [Job.Refresh]
  | .fetch => [Job.Killmails]
  | .resolve => []

/-- Number of completed ticks of a `tokio::time::interval` with the given
period within a span `[0, T]`: the first tick completes immediately, so
ticks happen at 0, period, 2 * period, and so on. -/
def tickCount (period T : Nat) : Nat := T / period + 1

/-- Jobs one timer arm has enqueued over a span of `T` time units. -/
def scheduledJobCount (k : TimerKind) (period T : Nat) : Nat :=
  (schedulerTickJobs k).length * tickCount period T

/-- C3 counterexample, at the source default periods (300 s, 600 s,
3600 s) and a span of 601 s just past the discovery period: the resolve
arm enqueues no job on a tick (0, not 1); the refresh timer has enqueued
3 jobs (ticks at 0, 300, 600) and the discovery timer 2 (ticks at 0 and
600), not exactly one each. -/
theorem c3_counterexample :
    ¬ ((schedulerTickJobs TimerKind.resolve).length = 1 ∧
       scheduledJobCount TimerKind.refresh 300 601 = 1 ∧
       scheduledJobCount TimerKind.fetch 600 601 = 1) := by
  decide

/-- C3 amended: the scheduler runs three independent fixed-interval
timers; every tick of the refresh timer enqueues exactly one `Refresh`
job and every tick of the discovery timer exactly one `Killmails` job via
the blocking send, while the resolve arm enqueues nothing — so zero
resolution jobs over any span; tokio intervals tick immediately on start,
so over a span `T` just past `P2` (`0 < P1 < P2 < T < 2 * P2`) the
refresh timer has enqueued `T / P1 + 1 ≥ 2` jobs and the discovery timer
exactly 2. -/
theorem c3_scheduler_counts (P1 P2 P3 T : Nat) (h0 : 0 < P1) (h12 : P1 < P2)
    (hT1 : P2 < T) (hT2 : T < 2 * P2) :
    schedulerTickJobs TimerKind.refresh = [Job.Refresh] ∧
    schedulerTickJobs TimerKind.fetch = [Job.Killmails] ∧
    schedulerTickJobs TimerKind.resolve = [] ∧
    scheduledJobCount TimerKind.resolve P3 T = 0 ∧
    scheduledJobCount TimerKind.refresh P1 T = T / P1 + 1 ∧
    2 ≤ scheduledJobCount TimerKind.refresh P1 T ∧
    scheduledJobCount TimerKind.fetch P2 T = 2 := by
  have hdiv1 : 1 ≤ T / P1 :=
    (Nat.one_le_div_iff h0).mpr (le_of_lt (lt_trans h12 hT1))
  have hdiv2 : T / P2 = 1 := Nat.div_eq_of_lt_le (by omega) (by omega)
  refine ⟨rfl, rfl, rfl, ?_, ?_, ?_, ?_⟩
  · simp [scheduledJobCount, schedulerTickJobs]
  · simp [scheduledJobCount, schedulerTickJobs, tickCount]
  · simp only [scheduledJobCount, schedulerTickJobs, tickCount,
      List.length_singleton, one_mul]
    omega
  · simp [scheduledJobCount, schedulerTickJobs, tickCount, hdiv2]

/-- C3 witness: at periods 300, 600, 3600 and span 601 the amended counts
hold concretely — zero resolution jobs and two discovery jobs. -/
theorem c3_witness :
    scheduledJobCount TimerKind.resolve 3600 601 = 0 ∧
    scheduledJobCount TimerKind.fetch 600 601 = 2 :=
  ⟨(c3_scheduler_counts 300 600 3600 601 (by decide) (by decide) (by decide)
      (by decide)).2.2.2.1,
   (c3_scheduler_counts 300 600 3600 601 (by decide) (by decide) (by decide)
      (by decide)).2.2.2.2.2.2⟩

/-- Jobs enqueued by `get_personal_killmails` for one account
(src/esi/mod.rs, lines 193 to 254): each listed item becomes one
`SaveKillmail` job with status `"new"`; a failed listing yields no jobs
and the propagated error. -/
def personalKillmailJobs (listResult : Except String (List KillmailItem)) :
    List Job × Except String Unit :=
  match listResult with
  | .error e => ([], .error e)
  | .ok items =>
    (items.map (fun km =>
      Job.SaveKillmail
        { killmail_id := km.killmail_id, killmail_hash := km.killmail_hash,
          status := "new" }), .ok ())

/-- Outcome of dispatching one dequeued job. -/
inductive StepOutcome where
  | ok
  | panic
  | stop
deriving DecidableEq, Repr

/-- Oracles for everything outside the Processor loop: connection-pool
checkout, the two account queries, the token exchange, the per-account
killmail listing, the pending-killmails query, the per-killmail detail
fetch and the three persistence calls. -/
structure ProcessorEnv where
  poolGetOk : Bool
  refreshQuery : Except String (List User)
  allUsersQuery : Except String (List User)
  exchange : User → Option (Except String User)
  listKillmails : User → Except String (List KillmailItem)
  pendingQuery : Except String (List Killmail)
  killmailFetch : Killmail → Except String Json
  saveUserRes : User → Except String Nat
  saveKillmailRes : Killmail → Except String Nat
  saveEntityRes : Entity → Except String Nat

/-- Dispatch of one dequeued job by the Processor loop
(src/esi/processor.rs `Processor::start`, lines 37 to 111), returning the
step outcome and the sub-jobs the handler enqueues.  `Refresh` and
`Killmails` begin with `pool.get().unwrap()` (lines 44 and 59), a panic
when checkout fails; their query errors are logged and the loop
continues, and a panic escaping the awaited `client.refresh` (an exchange
panicking mid-batch) also kills the consumer task.  `SaveCharacter` and `SaveKillmail` call `save_user` and
`save_killmail` (src/storage/handlers.rs), which also `pool.get().unwrap()`
(lines 11 and 29) and whose other errors are logged and survived.
`Killmail`, `Character`, `Corporation` and `Alliance` only log.  The
`SaveEntity` and `ResolveKillmails` arms are modelled from the spec
(section 4.2): `SaveEntity` calls `save_entity` of src/storage/handlers.rs
(same checkout-panic shape, persistence errors logged), `ResolveKillmails`
queries the pending killmail references and runs `resolve_killmails`,
logging a query failure.  Concurrent sub-jobs of one handler are listed in
task order (the source gives no interleaving guarantee). -/
def processJob (env : ProcessorEnv) : Job → StepOutcome × List Job
  | Job.Refresh =>
    if env.poolGetOk = false then (.panic, [])
    else
      match env.refreshQuery with
      | .error _ => (.ok, [])
      | .ok users =>
        match refreshJobs env.exchange users with
        | (jobs, true) => (.ok, jobs)
        | (jobs, false) => (.panic, jobs)
  | Job.Killmails =>
    if env.poolGetOk = false then (.panic, [])
    else
      match env.allUsersQuery with
      | .error _ => (.ok, [])
      | .ok users =>
          (.ok, (users.map (fun u => (personalKillmailJobs (env.listKillmails u)).1)).flatten)
  | Job.Killmail _ _ => (.ok, [])
  | Job.Character _ => (.ok, [])
  | Job.Corporation _ => (.ok, [])
  | Job.Alliance _ => (.ok, [])
  | Job.SaveCharacter user =>
    if env.poolGetOk = false then (.panic, [])
    else
      match env.saveUserRes user with
      | .ok _ => (.ok, [])
      | .error _ => (.ok, [])
  | Job.SaveKillmail killmail =>
    if env.poolGetOk = false then (.panic, [])
    else
      match env.saveKillmailRes killmail with
      | .ok _ => (.ok, [])
      | .error _ => (.ok, [])
  | Job.SaveEntity entity =>
    if env.poolGetOk = false then (.panic, [])
    else
      match env.saveEntityRes entity with
      | .ok _ => (.ok, [])
      | .error _ => (.ok, [])
  | Job.ResolveKillmails =>
    match env.pendingQuery with
    | .error _ => (.ok, [])
    | .ok kms => (.ok, (processResolveKillmails (.ok kms) env.killmailFetch).flatten)
  | Job.Stop => (.stop, [])

/-- How a Processor run ended. -/
inductive RunOutcome where
  | drained
  | stopped
  | panicked
deriving DecidableEq, Repr

/-- Result of consuming a queue: the jobs whose handling completed, the
sub-jobs emitted along the way, and how the run ended. -/
structure RunResult where
  handled : List Job
  emitted : List Job
  outcome : RunOutcome
deriving DecidableEq, Repr

/-- The Processor consume loop (src/esi/processor.rs, lines 40 to 110)
over a queue of jobs: dequeue one job at a time in order; a panic inside a
handler kills the consumer task, so nothing later is processed; `Stop`
breaks the loop; otherwise the loop continues with the next job. -/
def runProcessor (env : ProcessorEnv) : List Job → RunResult
  | [] => { handled := [], emitted := [], outcome := .drained }
  | j :: rest =>
    match processJob env j with
    | (.panic, _) => { handled := [], emitted := [], outcome := .panicked }
    | (.stop, _) => { handled := [j], emitted := [], outcome := .stopped }
    | (.ok, out) =>
      let r := runProcessor env rest
      { handled := j :: r.handled, emitted := out ++ r.emitted, outcome := r.outcome }

/-- Environment in which the connection pool has no available connection
(r2d2 `Pool::get` returns an error); everything else is benign. -/
def envPoolDown : ProcessorEnv :=
  { poolGetOk := false
    refreshQuery := .ok []
    allUsersQuery := .ok []
    exchange := fun u => some (.ok u)
    listKillmails := fun _ => .ok []
    pendingQuery := .ok []
    killmailFetch := fun _ => .error "unreachable"
    saveUserRes := fun _ => .ok 1
    saveKillmailRes := fun _ => .ok 1
    saveEntityRes := fun _ => .ok 1 }

/-- C1 (evaluation of the defect): with the connection pool exhausted, the
`pool.get().unwrap()` at the head of the `Refresh` arm panics the
processor task — the dequeued job never completes and the subsequently
enqueued `Killmails` job is never processed, where the failure-isolation
claim demands both jobs be survived with the failure merely logged. -/
theorem c1_pool_checkout_panic :
    runProcessor envPoolDown [Job.Refresh, Job.Killmails] =
      { handled := [], emitted := [], outcome := RunOutcome.panicked } ∧
    Job.Killmails ∉ (runProcessor envPoolDown [Job.Refresh, Job.Killmails]).handled := by
  refine ⟨rfl, ?_⟩
  intro h
  simp [runProcessor, processJob, envPoolDown] at h

/-- Updated row of the `DO UPDATE SET` clause of `save_user`
(src/storage/handlers.rs, lines 16 to 21): replaces the two tokens and the
expiry and bumps `updated_at`; every other column keeps its value. -/
def userUpdate (now : Int) (user r : User) : User :=
  { r with access_token := user.access_token, refresh_token := user.refresh_token,
           expires_at := user.expires_at, updated_at := now }

/-- Embedding of `save_user` (src/storage/handlers.rs, lines 7 to 23) as
its effect on the users table: `INSERT ... ON CONFLICT (character_id) DO
UPDATE` updates the row holding the conflicting character id (the table
carries the unique index on `character_id` that the conflict target
requires) and inserts a fresh row otherwise.  `now` is the database clock
value for the bumped `updated_at`. -/
def saveUser (now : Int) (table : List User) (user : User) : List User :=
  if table.any (fun r => r.character_id == user.character_id) then
    table.map (fun r =>
      if r.character_id = user.character_id then userUpdate now user r else r)
  else
    table ++ [user]

/-- Upserting never removes rows. -/
theorem saveUser_length (now : Int) (table : List User) (user : User) :
    table.length ≤ (saveUser now table user).length := by
  unfold saveUser
  split <;> simp

/-- A row with a different character id survives an upsert unchanged. -/
theorem saveUser_mem_other (now : Int) (table : List User) (user r : User)
    (hr : r ∈ table) (hne : r.character_id ≠ user.character_id) :
    r ∈ saveUser now table user := by
  unfold saveUser
  split
  · exact List.mem_map.mpr ⟨r, hr, by rw [if_neg hne]⟩
  · exact List.mem_append_left _ hr

/-- The conflicting row reappears with tokens, expiry and update timestamp
replaced. -/
theorem saveUser_mem_updated (now : Int) (table : List User) (user r : User)
    (hr : r ∈ table) (hEq : r.character_id = user.character_id) :
    userUpdate now user r ∈ saveUser now table user := by
  unfold saveUser
  have hc : table.any (fun x => x.character_id == user.character_id) = true :=
    List.any_eq_true.mpr ⟨r, hr, beq_iff_eq.mpr hEq⟩
  rw [if_pos hc]
  exact List.mem_map.mpr ⟨r, hr, by rw [if_pos hEq]⟩

/-- Upserting preserves uniqueness of character ids. -/
theorem saveUser_pairwise (now : Int) (table : List User) (user : User)
    (h : table.Pairwise (fun a b => a.character_id ≠ b.character_id)) :
    (saveUser now table user).Pairwise
      (fun a b => a.character_id ≠ b.character_id) := by
  unfold saveUser
  split
  · rw [List.pairwise_map]
    refine h.imp ?_
    intro a b hab
    have ha : (if a.character_id = user.character_id then userUpdate now user a
        else a).character_id = a.character_id := by
      split <;> rfl
    have hb : (if b.character_id = user.character_id then userUpdate now user b
        else b).character_id = b.character_id := by
      split <;> rfl
    rw [ha, hb]
    exact hab
  · rename_i hc
    rw [List.pairwise_append]
    refine ⟨h, List.pairwise_singleton _ _, ?_⟩
    intro a ha b hb
    rw [List.mem_singleton] at hb
    subst hb
    intro hEq
    exact hc (List.any_eq_true.mpr ⟨a, ha, beq_iff_eq.mpr hEq⟩)

/-- Any sequence of upserts preserves uniqueness of character ids. -/
theorem foldl_saveUser_pairwise (ops : List (Int × User)) :
    ∀ table : List User,
      table.Pairwise (fun a b => a.character_id ≠ b.character_id) →
      (ops.foldl (fun t p => saveUser p.1 t p.2) table).Pairwise
        (fun a b => a.character_id ≠ b.character_id) := by
  induction ops with
  | nil => intro t h; exact h
  | cons p rest ih =>
    intro t h
    exact ih _ (saveUser_pairwise p.1 t p.2 h)

/-- C9: upserting an account whose character id already has a row replaces
only the tokens, the expiry and the update timestamp of that row, leaving
its primary id, character id, creation timestamp and last-fetch timestamp
unchanged; rows with other character ids survive untouched, no row is
deleted, and uniqueness of character ids is preserved by any sequence of
upserts. -/
theorem c9_save_user_frame (now : Int) (table : List User) (user : User)
    (huniq : table.Pairwise (fun a b => a.character_id ≠ b.character_id)) :
    table.length ≤ (saveUser now table user).length ∧
    (∀ r ∈ table, r.character_id ≠ user.character_id → r ∈ saveUser now table user) ∧
    (∀ r ∈ table, r.character_id = user.character_id →
      userUpdate now user r ∈ saveUser now table user) ∧
    (∀ r : User, (userUpdate now user r).id = r.id ∧
      (userUpdate now user r).character_id = r.character_id ∧
      (userUpdate now user r).created_at = r.created_at ∧
      (userUpdate now user r).last_fetched = r.last_fetched ∧
      (userUpdate now user r).access_token = user.access_token ∧
      (userUpdate now user r).refresh_token = user.refresh_token ∧
      (userUpdate now user r).expires_at = user.expires_at ∧
      (userUpdate now user r).updated_at = now) ∧
    (saveUser now table user).Pairwise (fun a b => a.character_id ≠ b.character_id) ∧
    (∀ ops : List (Int × User),
      (ops.foldl (fun t p => saveUser p.1 t p.2) (saveUser now table user)).Pairwise
        (fun a b => a.character_id ≠ b.character_id)) := by
  refine ⟨saveUser_length now table user,
    fun r hr hne => saveUser_mem_other now table user r hr hne,
    fun r hr hEq => saveUser_mem_updated now table user r hr hEq,
    fun r => ⟨rfl, rfl, rfl, rfl, rfl, rfl, rfl, rfl⟩,
    saveUser_pairwise now table user huniq,
    fun ops => foldl_saveUser_pairwise ops _ (saveUser_pairwise now table user huniq)⟩

/-- Stored row for the C9 witness. -/
def storedUserA : User :=
  { id := 1, character_id := 7, access_token := "oldAcc", refresh_token := "oldRef",
    expires_at := 100, created_at := 10, updated_at := 10, last_fetched := some 50 }

/-- Replacement account for the C9 witness, same character id 7. -/
def freshUserB : User :=
  { id := 2, character_id := 7, access_token := "newAcc", refresh_token := "newRef",
    expires_at := 900, created_at := 20, updated_at := 20, last_fetched := none }

/-- C9 witness: on a one-row table holding character 7, upserting a fresh
account for character 7 yields the updated row and keeps character ids
unique. -/
theorem c9_witness :
    userUpdate 33 freshUserB storedUserA ∈ saveUser 33 [storedUserA] freshUserB ∧
    (saveUser 33 [storedUserA] freshUserB).Pairwise
      (fun a b => a.character_id ≠ b.character_id) := by
  have h := c9_save_user_frame 33 [storedUserA] freshUserB (by simp)
  exact ⟨h.2.2.1 storedUserA (by simp) rfl, h.2.2.2.2.1⟩
